import Mathlib

/-!
Verification of the expense-tracker backend route handlers
(`routes/userRoute.js`, `middleware/auth.js`).

The handlers are embedded shallowly: the MongoDB collections become Lean
lists, each Express handler becomes a pure function from its inputs and
the current store to a result value (capturing the HTTP status and the
JSON payload) together with the updated store, and dayjs date values
become an explicit calendar `DateTime` structure.  JavaScript numbers
carrying monetary amounts are modelled as `Int`; a stored amount on which
`Number(...)` yields `NaN` is modelled as `Option.none`.
-/

/-- A dayjs instant, at millisecond granularity: calendar fields as dayjs
exposes them (`month` is 1-based here, 1..12; `day` is the day of month). -/
structure DateTime where
  year : Nat
  month : Nat
  day : Nat
  hour : Nat
  minute : Nat
  second : Nat
  ms : Nat
deriving DecidableEq

/-- Mixed-radix encoding of a `DateTime`; for in-range calendar fields it is
order-isomorphic to the epoch-milliseconds timestamp dayjs compares by. -/
def DateTime.key (d : DateTime) : Nat :=
  ((((((d.year * 13 + d.month) * 32 + d.day) * 24 + d.hour) * 60 + d.minute) * 60
      + d.second) * 1000 + d.ms)

/-- Chronological comparison of two instants (dayjs compares timestamps). -/
def dtLe (a b : DateTime) : Bool :=
  a.key ≤ b.key

/-- `dayjs(...).isBetween(s, e, null, "[]")`: inclusive on both ends. -/
def isBetweenII (d s e : DateTime) : Bool :=
  dtLe s d && dtLe d e

/-- Gregorian leap-year rule, as dayjs uses for month lengths. -/
def isLeap (y : Nat) : Bool :=
  (y % 4 == 0 && y % 100 != 0) || y % 400 == 0

/-- Number of days in a month (dayjs `daysInMonth`). -/
def daysInMonth (y m : Nat) : Nat :=
  if m == 2 then (if isLeap y then 29 else 28)
  else if m == 4 || m == 6 || m == 9 || m == 11 then 30
  else 31

/-- `dayjs(...).startOf("day")`. -/
def startOfDay (d : DateTime) : DateTime :=
  { d with hour := 0, minute := 0, second := 0, ms := 0 }

/-- `dayjs(...).endOf("day")`: 23:59:59.999 of the same day. -/
def endOfDay (d : DateTime) : DateTime :=
  { d with hour := 23, minute := 59, second := 59, ms := 999 }

/-- `dayjs(...).startOf("month")`. -/
def startOfMonth (d : DateTime) : DateTime :=
  { d with day := 1, hour := 0, minute := 0, second := 0, ms := 0 }

/-- `dayjs(...).endOf("month")`: last day of the month, 23:59:59.999. -/
def endOfMonth (d : DateTime) : DateTime :=
  { d with day := daysInMonth d.year d.month,
           hour := 23, minute := 59, second := 59, ms := 999 }

/-- `dayjs(...).startOf("year")`. -/
def startOfYear (d : DateTime) : DateTime :=
  { d with month := 1, day := 1, hour := 0, minute := 0, second := 0, ms := 0 }

/-- `dayjs(...).endOf("year")`: Dec 31, 23:59:59.999. -/
def endOfYear (d : DateTime) : DateTime :=
  { d with month := 12, day := 31, hour := 23, minute := 59, second := 59, ms := 999 }

/-- An expense/income document of the `Expense` collection.  `amount` is
`some n` when `Number(amount)` is the number `n`, and `none` when it is
`NaN` (a non-numeric amount).  `date` is the instant dayjs parses the
stored date string to (creation validates the string parses). -/
structure Record where
  id : Nat
  userId : Nat
  type : String
  amount : Option Int
  category : String
  date : DateTime
  description : String
deriving DecidableEq

/-- The totals object `{ totalIncome, totalExpense, totalBalance }`. -/
structure Totals where
  totalIncome : Int
  totalExpense : Int
  totalBalance : Int
deriving DecidableEq

/-- `Number(r.amount) || 0`: the numeric amount, with `NaN` replaced by 0
(a numeric 0 falls through the `||` to the same value 0). -/
def coerceAmount : Option Int → Int
  | some n => n
  | none => 0

/-- `calculateTotals` (userRoute.js lines 19-32): filter by exact type
`"Income"` / `"Expense"` and reduce with `sum + (Number(r.amount) || 0)`
from 0; balance is their difference. -/
def calculateTotals (records : List Record) : Totals :=
  let totalIncome :=
    (records.filter (fun r => r.type == "Income")).foldl
      (fun sum r => sum + coerceAmount r.amount) 0
  let totalExpense :=
    (records.filter (fun r => r.type == "Expense")).foldl
      (fun sum r => sum + coerceAmount r.amount) 0
  let totalBalance := totalIncome - totalExpense
  { totalIncome := totalIncome, totalExpense := totalExpense, totalBalance := totalBalance }

/-- Truthiness of an optional request-body string: `!s` is true in JS when
the field is absent/undefined or the empty string. -/
def strFalsy : Option String → Bool
  | none => true
  | some s => s == ""

/-- Truthiness of an optional numeric request-body field: `!amount` is true
in JS when the field is absent or the number 0. -/
def amountFalsy : Option Int → Bool
  | none => true
  | some n => n == 0

/-- Request body of `POST /create-expense`; absent fields are `none`. -/
structure CreateBody where
  type : Option String
  amount : Option Int
  category : Option String
  date : Option String
  description : Option String
deriving DecidableEq

/-- Response of `POST /create-expense`. -/
inductive CreateResult
  | badRequest (error : String)
  | created (newRecord : Record) (totals : Totals)
deriving DecidableEq

/-- HTTP status of a create response. -/
def CreateResult.status : CreateResult → Nat
  | .badRequest _ => 400
  | .created _ _ => 201

/-- `POST /create-expense` (userRoute.js lines 37-72).  `parseDate` stands
for dayjs parsing of the date string: `some dt` when `dayjs(date).isValid()`,
`none` otherwise.  `nextId` is the id the store assigns to the new document;
`uid` is `req.user._id` from the auth middleware.  Returns the response and
the updated store. -/
def createExpense (parseDate : String → Option DateTime) (nextId uid : Nat)
    (body : CreateBody) (store : List Record) : CreateResult × List Record :=
  if strFalsy body.type || amountFalsy body.amount || strFalsy body.date then
    (.badRequest "Type, amount, and date are required.", store)
  else
    match parseDate (body.date.getD "") with
    | none => (.badRequest "Invalid date format.", store)
    | some dt =>
      let newRecord : Record :=
        { id := nextId, userId := uid, type := body.type.getD "",
          amount := body.amount, category := body.category.getD "",
          date := dt, description := body.description.getD "" }
      let newStore := store ++ [newRecord]
      let owned := newStore.filter (fun r => r.userId == uid)
      (.created newRecord (calculateTotals owned), newStore)

/-- Request body of `PUT /expense/:id`: fields present in `req.body` are
`some`, the others stay as stored (Mongo `findByIdAndUpdate` set). -/
structure UpdateBody where
  type : Option String
  amount : Option (Option Int)
  category : Option String
  date : Option DateTime
  description : Option String
deriving DecidableEq

/-- Apply an update body to a stored document. -/
def applyUpdate (b : UpdateBody) (r : Record) : Record :=
  { r with
    type := b.type.getD r.type,
    amount := b.amount.getD r.amount,
    category := b.category.getD r.category,
    date := b.date.getD r.date,
    description := b.description.getD r.description }

/-- Response of `PUT /expense/:id`. -/
inductive UpdateResult
  | notFound (error : String)
  | ok (updatedRecord : Record) (totals : Totals)
deriving DecidableEq

/-- HTTP status of an update response. -/
def UpdateResult.status : UpdateResult → Nat
  | .notFound _ => 404
  | .ok _ _ => 200

/-- `PUT /expense/:id` (userRoute.js lines 110-134): `findByIdAndUpdate`
with `{new: true}`, 404 when the id is unknown; on success the totals are
computed from `Expense.find()` — the whole store, with no user condition. -/
def updateExpense (id : Nat) (body : UpdateBody) (store : List Record) :
    UpdateResult × List Record :=
  match store.find? (fun r => r.id == id) with
  | none => (.notFound "Record not found", store)
  | some r =>
    let newStore := store.map (fun x => if x.id == id then applyUpdate body x else x)
    (.ok (applyUpdate body r) (calculateTotals newStore), newStore)

/-- Response of `DELETE /expense/:id`. -/
inductive DeleteResult
  | notFound (error : String)
  | ok (deletedRecord : Record) (totals : Totals)
deriving DecidableEq

/-- HTTP status of a delete response. -/
def DeleteResult.status : DeleteResult → Nat
  | .notFound _ => 404
  | .ok _ _ => 200

/-- `DELETE /expense/:id` (userRoute.js lines 139-156): `findByIdAndDelete`,
404 when the id is unknown; on success the totals are computed from
`Expense.find()` — the whole store, with no user condition. -/
def deleteExpense (id : Nat) (store : List Record) :
    DeleteResult × List Record :=
  match store.find? (fun r => r.id == id) with
  | none => (.notFound "Record not found", store)
  | some r =>
    let newStore := store.eraseP (fun x => x.id == id)
    (.ok r (calculateTotals newStore), newStore)

/-- Response of `GET /expenses-by-time`. -/
inductive TimeResult
  | badRequest (error : String)
  | ok (message : String) (data : List Record)
deriving DecidableEq

/-- HTTP status of a time-filter response. -/
def TimeResult.status : TimeResult → Nat
  | .badRequest _ => 400
  | .ok _ _ => 200

/-- The accepted filter tokens (userRoute.js line 164). -/
def validFilters : List String := ["today", "month", "year"]

/-- `GET /expenses-by-time` (userRoute.js lines 161-205): reject a query
token outside `validFilters` (a missing token also fails the `includes`
check) with 400; otherwise compute the window `[startOf f, endOf f]`
anchored at `now`, fetch the caller's records, and keep those whose date
`isBetween(startDate, endDate, null, "[]")`. -/
def expensesByTime (filter : Option String) (now : DateTime) (uid : Nat)
    (store : List Record) : TimeResult :=
  match filter with
  | none => .badRequest "Invalid filter. Use 'today', 'month', or 'year'."
  | some f =>
    if validFilters.contains f then
      let startDate :=
        if f == "today" then startOfDay now
        else if f == "month" then startOfMonth now
        else startOfYear now
      let endDate :=
        if f == "today" then endOfDay now
        else if f == "month" then endOfMonth now
        else endOfYear now
      let allRecords := store.filter (fun r => r.userId == uid)
      let filteredRecords :=
        allRecords.filter (fun r => isBetweenII r.date startDate endDate)
      .ok ("Expenses for " ++ f) filteredRecords
    else
      .badRequest "Invalid filter. Use 'today', 'month', or 'year'."

/-- One token of a JavaScript regular-expression pattern in the fragment
this model covers: the `.` wildcard and literal characters.  Patterns using
other metacharacters are outside the model. -/
inductive RTok
  | dot
  | lit (c : Char)
deriving DecidableEq

/-- `new RegExp(query, "i")` for patterns within the modelled fragment:
each `.` is the any-character wildcard, every other character is literal. -/
def parsePattern (s : String) : List RTok :=
  s.toList.map (fun c => if c == '.' then RTok.dot else RTok.lit c)

/-- Case-insensitive match of one pattern token against one character
(the `i` flag folds case). -/
def tokMatch : RTok → Char → Bool
  | RTok.dot, _ => true
  | RTok.lit l, c => l.toLower == c.toLower

/-- Does the pattern match a prefix of the character list? -/
def matchHere : List RTok → List Char → Bool
  | [], _ => true
  | _ :: _, [] => false
  | t :: ts, c :: cs => tokMatch t c && matchHere ts cs

/-- Does the pattern match starting at some position?  This is the
unanchored `RegExp.test` / Mongo `$regex` semantics. -/
def searchFrom (pat : List RTok) : List Char → Bool
  | [] => matchHere pat []
  | c :: cs => matchHere pat (c :: cs) || searchFrom pat cs

/-- `regex.test(field)` for a case-insensitive pattern. -/
def regexTest (pat : List RTok) (s : String) : Bool :=
  searchFrom pat s.toList

/-- The JavaScript regular-expression metacharacters; a query free of them
is matched purely literally. -/
def regexMetachars : List Char :=
  ['.', '*', '+', '?', '(', ')', '[', ']', '\x7b', '\x7d', '^', '$', '\\', '|']

/-- `query.trim() === ""`: JS `trim` strips leading and trailing
whitespace, so the trimmed string is empty exactly when every character of
the query is whitespace (in particular for the empty string). -/
def trimEmpty (s : String) : Bool :=
  s.toList.all Char.isWhitespace

/-- Response of `GET /search-expenses`. -/
inductive SearchResult
  | badRequest (error : String)
  | ok (totalResults : Nat) (data : List Record)
deriving DecidableEq

/-- HTTP status of a search response. -/
def SearchResult.status : SearchResult → Nat
  | .badRequest _ => 400
  | .ok _ _ => 200

/-- `GET /search-expenses` (userRoute.js lines 211-238): reject a missing,
empty or whitespace-only query with 400; otherwise `Expense.find` with an
`$or` of case-insensitive `$regex` conditions on category, description and
type.  The Mongo query has no `userId` condition, so the whole store is
searched; the caller's identity does not appear. -/
def searchExpenses (query : Option String) (store : List Record) : SearchResult :=
  match query with
  | none => .badRequest "Query parameter is required"
  | some q =>
    if trimEmpty q then .badRequest "Query parameter is required"
    else
      let pat := parsePattern q
      let results := store.filter (fun r =>
        regexTest pat r.category || regexTest pat r.description || regexTest pat r.type)
      .ok results.length results

/-- Lower-cased character list of a string, for case-insensitive
comparison. -/
def lowerList (s : String) : List Char :=
  s.toList.map Char.toLower

/-- Stated from the spec's words for comparison with the code: "category OR
description OR type contains the query as a case-insensitive substring". -/
def containsCI (hay needle : String) : Bool :=
  decide (lowerList needle <:+: lowerList hay)

/-- A user document of the `User` collection; `password` holds the bcrypt
hash. -/
structure User where
  id : Nat
  name : String
  email : String
  password : String
deriving DecidableEq

/-- The payload `jwt.sign` binds into the issued 30-day token
(userRoute.js lines 304-308). -/
structure Token where
  userId : Nat
  email : String
deriving DecidableEq

/-- Characters the local part of the email regex accepts:
`[a-zA-Z0-9._%+-]`. -/
def isLocalChar (c : Char) : Bool :=
  c.isAlpha || c.isDigit || c == '.' || c == '_' || c == '%' || c == '+' || c == '-'

/-- Characters the domain part of the email regex accepts: `[a-zA-Z0-9.-]`. -/
def isDomainChar (c : Char) : Bool :=
  c.isAlpha || c.isDigit || c == '.' || c == '-'

/-- The TLD part of the email regex: `[a-zA-Z]{2,}`. -/
def tldOk (cs : List Char) : Bool :=
  decide (2 ≤ cs.length) && cs.all Char.isAlpha

/-- Domain-and-TLD of the email regex, `[a-zA-Z0-9.-]+\.[a-zA-Z]{2,}$`:
some split at a `.` has a nonempty domain prefix of domain characters and
an all-letters suffix of length at least 2 running to the end (regex
backtracking tries every such split). -/
def domainOk (cs : List Char) : Bool :=
  (List.range cs.length).any (fun i =>
    cs.getD i ' ' == '.' && decide (0 < i) && (cs.take i).all isDomainChar
      && tldOk (cs.drop (i + 1)))

/-- Split a character list into the segments between occurrences of a
separator character (the segments `"a@b"` has around `@`). -/
def splitSegs (sep : Char) : List Char → List (List Char)
  | [] => [[]]
  | c :: cs =>
    if c == sep then [] :: splitSegs sep cs
    else
      match splitSegs sep cs with
      | [] => [[c]]
      | seg :: segs => (c :: seg) :: segs

/-- The email regex `/^[a-zA-Z0-9._%+-]+@[a-zA-Z0-9.-]+\.[a-zA-Z]{2,}$/`
(userRoute.js lines 255 and 290): exactly one `@` (neither character class
admits it), a nonempty local part, and a valid domain part. -/
def emailValid (s : String) : Bool :=
  match splitSegs '@' s.toList with
  | [l, d] => !l.isEmpty && l.all isLocalChar && domainOk d
  | _ => false

/-- Response of `POST /login`. -/
inductive LoginResult
  | badRequest (message : String)
  | notFound (message : String)
  | ok (message : String) (token : Token)
deriving DecidableEq

/-- HTTP status of a login response. -/
def LoginResult.status : LoginResult → Nat
  | .badRequest _ => 400
  | .notFound _ => 404
  | .ok _ _ => 200

/-- `POST /login` (userRoute.js lines 278-318).  `compare` stands for
`bcrypt.compare plaintext hash`.  Missing/empty fields → 400; invalid email
format → 400; unknown email → 404 "User not found"; failed hash comparison
→ 400 "Invalid password"; otherwise a signed token binding user id and
email is issued. -/
def login (compare : String → String → Bool)
    (email password : Option String) (users : List User) : LoginResult :=
  if strFalsy email || strFalsy password then
    .badRequest "Email and password are required"
  else
    let e := email.getD ""
    let p := password.getD ""
    if !emailValid e then
      .badRequest "Invalid email format"
    else
      match users.find? (fun u => u.email == e) with
      | none => .notFound "User not found"
      | some u =>
        if !compare p u.password then
          .badRequest "Invalid password"
        else
          .ok "Login successful" { userId := u.id, email := u.email }

/-! ## Concrete data used in examples and witnesses -/

/-- 2024-03-15T10:00, the current instant of the spec's worked example. -/
def nowMar15 : DateTime := ⟨2024, 3, 15, 10, 0, 0, 0⟩

/-- A record of user 1 dated 2024-03-15 (midnight, as dayjs parses a bare
date). -/
def recMar15 : Record :=
  ⟨1, 1, "Expense", some 250, "Food", ⟨2024, 3, 15, 0, 0, 0, 0⟩, "lunch"⟩

/-- A record of user 1 dated 2024-03-14. -/
def recMar14 : Record :=
  ⟨2, 1, "Expense", some 40, "Food", ⟨2024, 3, 14, 0, 0, 0, 0⟩, "tea"⟩

/-- An income record of user 1. -/
def recIncomeU1 : Record :=
  ⟨3, 1, "Income", some 100, "Salary", ⟨2024, 3, 1, 0, 0, 0, 0⟩, "pay"⟩

/-- An income record of user 2. -/
def recIncomeU2 : Record :=
  ⟨4, 2, "Income", some 50, "Salary", ⟨2024, 3, 2, 0, 0, 0, 0⟩, "pay"⟩

/-- An expense record of user 1. -/
def recExpenseU1 : Record :=
  ⟨5, 1, "Expense", some 30, "Food", ⟨2024, 3, 3, 0, 0, 0, 0⟩, "snack"⟩

/-- A record of user 2 whose fields contain no `.`; its category matches
the query "food". -/
def recFoodU2 : Record :=
  ⟨6, 2, "Expense", some 12, "food", ⟨2024, 3, 4, 0, 0, 0, 0⟩, "pizza"⟩

/-- A record whose three searched fields are "ab", "cd" and "Expense" —
none contains the character `.`. -/
def recNoDot : Record :=
  ⟨7, 1, "Expense", some 3, "ab", ⟨2024, 3, 5, 0, 0, 0, 0⟩, "cd"⟩

/-- A record whose category is "Groceries", the spec's search example. -/
def recGroceries : Record :=
  ⟨8, 1, "Expense", some 20, "Groceries", ⟨2024, 3, 6, 0, 0, 0, 0⟩, "veg"⟩

/-! ## Helper lemmas -/

/-- A `reduce((sum, r) => sum + f r, 0)` fold is the sum of the mapped
list. -/
theorem foldl_add_eq_sum (f : Record → Int) :
    ∀ (l : List Record) (init : Int),
      l.foldl (fun sum r => sum + f r) init = init + (l.map f).sum := by
  intro l
  induction l with
  | nil => intro init; simp
  | cons r t ih =>
    intro init
    simp [List.foldl_cons, ih]
    ring

/-- Literal-token pattern matching at the head is lower-cased prefix
matching. -/
theorem matchHere_lit_iff (qs : List Char) :
    ∀ cs : List Char,
      matchHere (qs.map RTok.lit) cs = true
        ↔ qs.map Char.toLower <+: cs.map Char.toLower := by
  induction qs with
  | nil => intro cs; simp [matchHere]
  | cons q qt ih =>
    intro cs
    cases cs with
    | nil => simp [matchHere]
    | cons c ct =>
      simp [matchHere, tokMatch, List.cons_prefix_cons, ih ct, Bool.and_eq_true,
        beq_iff_eq, and_comm]

/-- Unanchored literal-token matching is lower-cased substring
containment. -/
theorem searchFrom_lit_iff (qs : List Char) :
    ∀ cs : List Char,
      searchFrom (qs.map RTok.lit) cs = true
        ↔ qs.map Char.toLower <:+: cs.map Char.toLower := by
  intro cs
  induction cs with
  | nil =>
    simp [searchFrom, matchHere_lit_iff qs [], List.infix_nil, List.prefix_nil,
      List.map_eq_nil_iff]
  | cons c ct ih =>
    simp [searchFrom, Bool.or_eq_true, matchHere_lit_iff qs (c :: ct), ih,
      List.infix_cons_iff]

/-- A query free of regular-expression metacharacters parses to a purely
literal pattern. -/
theorem parsePattern_eq_lit (q : String) (hm : ∀ c ∈ q.toList, c ∉ regexMetachars) :
    parsePattern q = q.toList.map RTok.lit := by
  unfold parsePattern
  apply List.map_congr_left
  intro c hc
  have hdot : c ∉ regexMetachars := hm c hc
  have : ¬ c = '.' := by
    intro h
    exact hdot (by simp [regexMetachars, h])
  simp [this]

/-- For a metacharacter-free query, the code's case-insensitive regex test
coincides with case-insensitive substring containment. -/
theorem regexTest_eq_containsCI (q : String) (hm : ∀ c ∈ q.toList, c ∉ regexMetachars)
    (s : String) :
    regexTest (parsePattern q) s = containsCI s q := by
  rw [Bool.eq_iff_iff]
  rw [parsePattern_eq_lit q hm]
  unfold regexTest containsCI lowerList
  rw [searchFrom_lit_iff, decide_eq_true_iff]

/-! ## Claims -/

/-- C1: for every sequence of records, `calculateTotals` returns
`totalIncome` equal to the sum of the (non-numeric-coerced-to-0) amounts of
the records whose type is exactly `"Income"`, `totalExpense` the analogous
sum over type `"Expense"`, and `totalBalance = totalIncome - totalExpense`;
it is total, and on the empty list it returns zeros. -/
theorem calculateTotals_correct (records : List Record) :
    (calculateTotals records).totalIncome
        = ((records.filter (fun r => r.type == "Income")).map
            (fun r => coerceAmount r.amount)).sum
    ∧ (calculateTotals records).totalExpense
        = ((records.filter (fun r => r.type == "Expense")).map
            (fun r => coerceAmount r.amount)).sum
    ∧ (calculateTotals records).totalBalance
        = (calculateTotals records).totalIncome
            - (calculateTotals records).totalExpense
    ∧ calculateTotals []
        = { totalIncome := 0, totalExpense := 0, totalBalance := 0 } := by
  refine ⟨?_, ?_, ?_, rfl⟩
  · simp [calculateTotals, foldl_add_eq_sum]
  · simp [calculateTotals, foldl_add_eq_sum]
  · simp [calculateTotals]

/-- C6: for every record set, `totalBalance = totalIncome - totalExpense`,
and when every record's (coerced) amount is nonnegative, so are
`totalIncome` and `totalExpense`. -/
theorem calculateTotals_algebra (records : List Record) :
    (calculateTotals records).totalBalance
        = (calculateTotals records).totalIncome
            - (calculateTotals records).totalExpense
    ∧ ((∀ r ∈ records, 0 ≤ coerceAmount r.amount) →
        0 ≤ (calculateTotals records).totalIncome
          ∧ 0 ≤ (calculateTotals records).totalExpense) := by
  constructor
  · simp [calculateTotals]
  · intro h
    constructor
    · rw [show (calculateTotals records).totalIncome
          = ((records.filter (fun r => r.type == "Income")).map
              (fun r => coerceAmount r.amount)).sum by
            simp [calculateTotals, foldl_add_eq_sum]]
      apply List.sum_nonneg
      intro x hx
      obtain ⟨r, hr, hfx⟩ := List.mem_map.mp hx
      exact hfx ▸ h r (List.mem_filter.mp hr).1
    · rw [show (calculateTotals records).totalExpense
          = ((records.filter (fun r => r.type == "Expense")).map
              (fun r => coerceAmount r.amount)).sum by
            simp [calculateTotals, foldl_add_eq_sum]]
      apply List.sum_nonneg
      intro x hx
      obtain ⟨r, hr, hfx⟩ := List.mem_map.mp hx
      exact hfx ▸ h r (List.mem_filter.mp hr).1

/-- Witness for C6 at a concrete record set with nonnegative amounts. -/
theorem calculateTotals_algebra_witness :
    (∀ r ∈ [recIncomeU1, recExpenseU1, recMar15], 0 ≤ coerceAmount r.amount)
    ∧ (0 ≤ (calculateTotals [recIncomeU1, recExpenseU1, recMar15]).totalIncome
        ∧ 0 ≤ (calculateTotals [recIncomeU1, recExpenseU1, recMar15]).totalExpense) :=
  ⟨by decide, (calculateTotals_algebra [recIncomeU1, recExpenseU1, recMar15]).2 (by decide)⟩

/-- C2: with a valid period token the time filter keeps exactly the
caller's records whose date lies in the computed calendar window,
inclusively on both ends (`dtLe start date && dtLe date end`); the window
comparator accepts the midnight start boundary itself; and at
now = 2024-03-15T10:00 with filter "today", a record dated 2024-03-15
(midnight) is kept while one dated 2024-03-14 is dropped. -/
theorem expensesByTime_window (now : DateTime) (uid : Nat) (store : List Record) :
    (expensesByTime (some "today") now uid store
        = .ok "Expenses for today"
            ((store.filter (fun r => r.userId == uid)).filter
              (fun r => dtLe (startOfDay now) r.date && dtLe r.date (endOfDay now))))
    ∧ (expensesByTime (some "month") now uid store
        = .ok "Expenses for month"
            ((store.filter (fun r => r.userId == uid)).filter
              (fun r => dtLe (startOfMonth now) r.date && dtLe r.date (endOfMonth now))))
    ∧ (expensesByTime (some "year") now uid store
        = .ok "Expenses for year"
            ((store.filter (fun r => r.userId == uid)).filter
              (fun r => dtLe (startOfYear now) r.date && dtLe r.date (endOfYear now))))
    ∧ isBetweenII (startOfDay now) (startOfDay now) (endOfDay now) = true
    ∧ expensesByTime (some "today") nowMar15 1 [recMar15, recMar14]
        = .ok "Expenses for today" [recMar15] := by
  refine ⟨rfl, rfl, rfl, ?_, by decide⟩
  simp only [isBetweenII, dtLe, Bool.and_eq_true, decide_eq_true_iff]
  refine ⟨le_refl _, ?_⟩
  simp [DateTime.key, startOfDay, endOfDay]
  omega

/-- C3: a missing or unrecognized filter token makes `/expenses-by-time`
answer 400 with the validation error, returning no records and not
defaulting to any window. -/
theorem expensesByTime_invalid (f : Option String) (now : DateTime)
    (uid : Nat) (store : List Record)
    (h : ∀ s, f = some s → s ∉ validFilters) :
    expensesByTime f now uid store
        = .badRequest "Invalid filter. Use 'today', 'month', or 'year'."
    ∧ (expensesByTime f now uid store).status = 400
    ∧ ∀ msg data, expensesByTime f now uid store ≠ .ok msg data := by
  have hbad : expensesByTime f now uid store
      = .badRequest "Invalid filter. Use 'today', 'month', or 'year'." := by
    cases f with
    | none => rfl
    | some s =>
      have hs : s ∉ validFilters := h s rfl
      have hc : validFilters.contains s = false := by
        show List.elem s validFilters = false
        rw [List.elem_eq_mem, decide_eq_false_iff_not]
        exact hs
      simp [expensesByTime, hc, hs]
  refine ⟨hbad, by rw [hbad]; rfl, ?_⟩
  intro msg data
  rw [hbad]
  intro hcontra
  exact TimeResult.noConfusion hcontra

/-- Witness for C3 at the concrete token "week" and a nonempty store. -/
theorem expensesByTime_invalid_witness :
    expensesByTime (some "week") nowMar15 1 [recMar15, recMar14]
        = .badRequest "Invalid filter. Use 'today', 'month', or 'year'."
    ∧ (expensesByTime (some "week") nowMar15 1 [recMar15, recMar14]).status = 400
    ∧ ∀ msg data, expensesByTime (some "week") nowMar15 1 [recMar15, recMar14]
        ≠ .ok msg data :=
  expensesByTime_invalid (some "week") nowMar15 1 [recMar15, recMar14]
    (by intro s hs; cases hs; decide)

/-- C4 counterexample: the claim fails as stated.  (a) With query "." the
code returns a record none of whose searched fields contains "." as a
substring — the query is a regular-expression pattern, not a literal
substring; (b) the claim's own example is false on the code: query
"grocery" does not match category "Groceries" (the string "groceries"
does not contain "grocery"), the search returns no records; (c) the
non-empty query " " is rejected with 400 instead of returning a
subsequence. -/
theorem searchExpenses_substring_claim_false :
    (searchExpenses (some ".") [recNoDot] = .ok 1 [recNoDot]
      ∧ (containsCI recNoDot.category "." || containsCI recNoDot.description "."
          || containsCI recNoDot.type ".") = false)
    ∧ searchExpenses (some "grocery") [recGroceries] = .ok 0 []
    ∧ containsCI "Groceries" "grocery" = false
    ∧ (¬ " " = "" ∧ searchExpenses (some " ") [recNoDot]
        = .badRequest "Query parameter is required") := by
  decide

/-- C4 (amended): for every query that trims to a nonempty string and
contains no regular-expression metacharacter, `/search-expenses` returns
exactly the records — in the store's order — for which category OR
description OR type contains the query as a case-insensitive substring. -/
theorem searchExpenses_substring (q : String) (store : List Record)
    (hq : trimEmpty q = false)
    (hm : ∀ c ∈ q.toList, c ∉ regexMetachars) :
    searchExpenses (some q) store
      = .ok (store.filter (fun r =>
              containsCI r.category q || containsCI r.description q
                || containsCI r.type q)).length
            (store.filter (fun r =>
              containsCI r.category q || containsCI r.description q
                || containsCI r.type q)) := by
  have hfilter : store.filter (fun r =>
        regexTest (parsePattern q) r.category
          || regexTest (parsePattern q) r.description
          || regexTest (parsePattern q) r.type)
      = store.filter (fun r =>
        containsCI r.category q || containsCI r.description q
          || containsCI r.type q) := by
    apply List.filter_congr
    intro r _
    rw [regexTest_eq_containsCI q hm, regexTest_eq_containsCI q hm,
      regexTest_eq_containsCI q hm]
  simp only [searchExpenses, hq, Bool.false_eq_true, if_false, hfilter]

/-- Witness for C4 (amended) at query "grocer" against category
"Groceries". -/
theorem searchExpenses_substring_witness :
    trimEmpty "grocer" = false
    ∧ searchExpenses (some "grocer") [recGroceries, recNoDot]
        = .ok ([recGroceries, recNoDot].filter (fun r =>
                containsCI r.category "grocer" || containsCI r.description "grocer"
                  || containsCI r.type "grocer")).length
              ([recGroceries, recNoDot].filter (fun r =>
                containsCI r.category "grocer" || containsCI r.description "grocer"
                  || containsCI r.type "grocer")) :=
  ⟨by decide,
    searchExpenses_substring "grocer" [recGroceries, recNoDot] (by decide) (by decide)⟩

/-- C5: whenever `PUT /expense/:id` or `DELETE /expense/:id` succeeds, the
totals in the response are `calculateTotals` of the entire resulting store
— every user's records; concretely, deleting record 5 of user 1 from a
store that also holds user 2's income yields totals ⟨150, 0, 150⟩, which
differ from the totals of user 1's own records ⟨100, 0, 100⟩. -/
theorem totals_recomputed_storewide :
    (∀ (id : Nat) (body : UpdateBody) (store : List Record)
        (rec : Record) (t : Totals) (store2 : List Record),
      updateExpense id body store = (.ok rec t, store2) → t = calculateTotals store2)
    ∧ (∀ (id : Nat) (store : List Record)
        (rec : Record) (t : Totals) (store2 : List Record),
      deleteExpense id store = (.ok rec t, store2) → t = calculateTotals store2)
    ∧ (deleteExpense 5 [recIncomeU1, recIncomeU2, recExpenseU1]
        = (.ok recExpenseU1 ⟨150, 0, 150⟩, [recIncomeU1, recIncomeU2])
      ∧ (⟨150, 0, 150⟩ : Totals)
          ≠ calculateTotals
              ([recIncomeU1, recIncomeU2].filter (fun r => r.userId == 1))) := by
  refine ⟨?_, ?_, by decide⟩
  · intro id body store rec t store2 h
    unfold updateExpense at h
    cases hf : store.find? (fun r => r.id == id) with
    | none =>
      rw [hf] at h
      exact UpdateResult.noConfusion (congrArg Prod.fst h)
    | some r =>
      rw [hf] at h
      have h1 : UpdateResult.ok (applyUpdate body r)
            (calculateTotals (store.map fun x => if x.id == id then applyUpdate body x else x))
          = UpdateResult.ok rec t := congrArg Prod.fst h
      have h2 : store.map (fun x => if x.id == id then applyUpdate body x else x)
          = store2 := congrArg Prod.snd h
      injection h1 with h3 h4
      rw [← h4, ← h2]
  · intro id store rec t store2 h
    unfold deleteExpense at h
    cases hf : store.find? (fun r => r.id == id) with
    | none =>
      rw [hf] at h
      exact DeleteResult.noConfusion (congrArg Prod.fst h)
    | some r =>
      rw [hf] at h
      have h1 : DeleteResult.ok r (calculateTotals (store.eraseP fun x => x.id == id))
          = DeleteResult.ok rec t := congrArg Prod.fst h
      have h2 : store.eraseP (fun x => x.id == id) = store2 := congrArg Prod.snd h
      injection h1 with h3 h4
      rw [← h4, ← h2]

/-- Witness for C5 applying the store-wide-totals property to the concrete
delete of record 5. -/
theorem totals_recomputed_storewide_witness :
    (⟨150, 0, 150⟩ : Totals) = calculateTotals [recIncomeU1, recIncomeU2] :=
  totals_recomputed_storewide.2.1 5 [recIncomeU1, recIncomeU2, recExpenseU1]
    recExpenseU1 ⟨150, 0, 150⟩ [recIncomeU1, recIncomeU2] (by decide)

/-- C8: deleting an id absent from the store answers 404 "Record not
found" and leaves the store unchanged. -/
theorem deleteExpense_unknown_id (id : Nat) (store : List Record)
    (h : ∀ r ∈ store, r.id ≠ id) :
    deleteExpense id store = (.notFound "Record not found", store)
    ∧ (deleteExpense id store).1.status = 404 := by
  have hf : store.find? (fun r => r.id == id) = none := by
    rw [List.find?_eq_none]
    intro r hr
    simpa using h r hr
  constructor
  · unfold deleteExpense
    rw [hf]
  · unfold deleteExpense
    rw [hf]
    rfl

/-- Witness for C8: deleting the unknown id 99 from a two-record store. -/
theorem deleteExpense_unknown_id_witness :
    deleteExpense 99 [recMar15, recMar14]
        = (.notFound "Record not found", [recMar15, recMar14])
    ∧ (deleteExpense 99 [recMar15, recMar14]).1.status = 404 :=
  deleteExpense_unknown_id 99 [recMar15, recMar14] (by decide)

/-- C7: a login whose email belongs to a registered user (nonempty, valid
format, found by the store lookup) but whose nonempty password fails the
bcrypt comparison answers 400 "Invalid password" and issues no token;
a lookup miss instead answers 404 "User not found", a distinct response. -/
theorem login_wrong_password (compare : String → String → Bool)
    (e p : String) (users : List User) (u : User)
    (hp : ¬ p = "")
    (he : emailValid e = true)
    (hu : users.find? (fun x => x.email == e) = some u)
    (hc : compare p u.password = false) :
    login compare (some e) (some p) users = .badRequest "Invalid password"
    ∧ (login compare (some e) (some p) users).status = 400
    ∧ (∀ msg tok, login compare (some e) (some p) users ≠ .ok msg tok)
    ∧ (∀ (compare2 : String → String → Bool) (e2 p2 : String) (users2 : List User),
        emailValid e2 = true → ¬ p2 = "" →
        users2.find? (fun x => x.email == e2) = none →
          login compare2 (some e2) (some p2) users2 = .notFound "User not found"
          ∧ (login compare2 (some e2) (some p2) users2).status = 404)
    ∧ LoginResult.badRequest "Invalid password" ≠ LoginResult.notFound "User not found" := by
  have hlogin : ∀ (cmp : String → String → Bool) (e' p' : String) (users' : List User),
      emailValid e' = true → ¬ p' = "" →
      login cmp (some e') (some p') users'
        = (match users'.find? (fun x => x.email == e') with
           | none => LoginResult.notFound "User not found"
           | some u' =>
             if !cmp p' u'.password then LoginResult.badRequest "Invalid password"
             else LoginResult.ok "Login successful" { userId := u'.id, email := u'.email }) := by
    intro cmp e' p' users' he' hp'
    have he'' : ¬ e' = "" := by
      intro hcontra
      rw [hcontra] at he'
      exact absurd he' (by decide)
    unfold login
    rw [show strFalsy (some e') = false by simpa [strFalsy] using he'',
      show strFalsy (some p') = false by simpa [strFalsy] using hp']
    simp only [Bool.false_or, Bool.or_self, Option.getD_some, he', Bool.not_true,
      Bool.false_eq_true, if_false]
  have hmain : login compare (some e) (some p) users = .badRequest "Invalid password" := by
    rw [hlogin compare e p users he hp, hu]
    simp [hc]
  refine ⟨hmain, by rw [hmain]; rfl, ?_, ?_, by intro hcontra; cases hcontra⟩
  · intro msg tok
    rw [hmain]
    intro hcontra
    cases hcontra
  · intro compare2 e2 p2 users2 he2 hp2 hnone
    have h404 : login compare2 (some e2) (some p2) users2 = .notFound "User not found" := by
      rw [hlogin compare2 e2 p2 users2 he2 hp2, hnone]
    exact ⟨h404, by rw [h404]; rfl⟩

/-- Witness for C7: the stored user "ann@mail.com" with a comparison that
rejects the supplied password. -/
theorem login_wrong_password_witness :
    login (fun _ _ => false) (some "ann@mail.com") (some "wrong")
        [⟨1, "Ann", "ann@mail.com", "hash"⟩]
      = .badRequest "Invalid password"
    ∧ (login (fun _ _ => false) (some "ann@mail.com") (some "wrong")
        [⟨1, "Ann", "ann@mail.com", "hash"⟩]).status = 400
    ∧ (∀ msg tok, login (fun _ _ => false) (some "ann@mail.com") (some "wrong")
        [⟨1, "Ann", "ann@mail.com", "hash"⟩] ≠ .ok msg tok)
    ∧ (∀ (compare2 : String → String → Bool) (e2 p2 : String) (users2 : List User),
        emailValid e2 = true → ¬ p2 = "" →
        users2.find? (fun x => x.email == e2) = none →
          login compare2 (some e2) (some p2) users2 = .notFound "User not found"
          ∧ (login compare2 (some e2) (some p2) users2).status = 404)
    ∧ LoginResult.badRequest "Invalid password" ≠ LoginResult.notFound "User not found" :=
  login_wrong_password (fun _ _ => false) "ann@mail.com" "wrong"
    [⟨1, "Ann", "ann@mail.com", "hash"⟩] ⟨1, "Ann", "ann@mail.com", "hash"⟩
    (by decide) (by decide) (by decide) rfl

/-- C9: `/search-expenses` queries the whole store with no `userId`
condition: with caller user 1, the store holding only user 2's record
"food" returns that record (a foreign record, `userId ≠ 1`), and the
result changes when user 2's records are removed — the result set depends
on other users' records. -/
theorem searchExpenses_cross_user :
    searchExpenses (some "food") [recFoodU2] = .ok 1 [recFoodU2]
    ∧ recFoodU2.userId = 2
    ∧ ¬ recFoodU2.userId = 1
    ∧ searchExpenses (some "food") [] = .ok 0 []
    ∧ searchExpenses (some "food") [recFoodU2] ≠ searchExpenses (some "food") [] := by
  decide

/-- C10: `POST /create-expense` with `amount` equal to 0 is rejected by the
falsy presence check with 400 "Type, amount, and date are required.", and
the store is unchanged — no record is persisted. -/
theorem createExpense_zero_amount (parseDate : String → Option DateTime)
    (nextId uid : Nat) (body : CreateBody) (store : List Record)
    (h : body.amount = some 0) :
    createExpense parseDate nextId uid body store
        = (.badRequest "Type, amount, and date are required.", store)
    ∧ ((createExpense parseDate nextId uid body store).1).status = 400 := by
  have hcond : (strFalsy body.type || amountFalsy body.amount || strFalsy body.date)
      = true := by
    rw [h]
    simp [amountFalsy]
  constructor
  · unfold createExpense
    rw [hcond]
    rfl
  · unfold createExpense
    rw [hcond]
    rfl

/-- Witness for C10: a fully-populated create request whose amount is 0. -/
theorem createExpense_zero_amount_witness :
    createExpense (fun _ => some ⟨2024, 3, 15, 0, 0, 0, 0⟩) 9 1
        ⟨some "Expense", some 0, some "Food", some "2024-03-15", some "zero"⟩
        [recMar15]
      = (.badRequest "Type, amount, and date are required.", [recMar15])
    ∧ ((createExpense (fun _ => some ⟨2024, 3, 15, 0, 0, 0, 0⟩) 9 1
        ⟨some "Expense", some 0, some "Food", some "2024-03-15", some "zero"⟩
        [recMar15]).1).status = 400 :=
  createExpense_zero_amount (fun _ => some ⟨2024, 3, 15, 0, 0, 0, 0⟩) 9 1
    ⟨some "Expense", some 0, some "Food", some "2024-03-15", some "zero"⟩
    [recMar15] rfl
